import Mathlib

/-!
# deviceconnect — verification of the session-bridging engine

A shallow embedding of the `deviceconnect` repository (Go): the frame
codec, the app-layer `PrepareUserSession`, the management endpoint's
pre-upgrade pipeline and bridging loop, the keep-alive state machine,
and the server shutdown path, together with theorems settling the
specification's claims about them.

Parts of the repository whose source is available (`server/server.go`
holding `InitAndRun` and the `app` package) are embedded directly from
the code.  The HTTP management handler and the wire codec are present
in the repository only through their tests
(`api/http/management_test.go`) and the OpenAPI document; definitions
for those parts are modelled from the specification and the tests, and
each such definition says so in its doc comment.
-/

namespace Deviceconnect

/-! ## Byte-level primitives of the frame codec

The wire format is a tagged, length-prefixed binary form (a
msgpack-compatible layout).  Bytes are modelled as natural numbers; the
encoder only emits values `< 256`.  `encLE w n` is the `w`-byte
little-endian encoding of `n`; `decLE` is its reader. -/

def encLE : Nat → Nat → List Nat
  | 0, _ => []
  | w + 1, n => (n % 256) :: encLE w (n / 256)

def decLE : Nat → List Nat → Option (Nat × List Nat)
  | 0, rest => some (0, rest)
  | _ + 1, [] => none
  | w + 1, b :: rest =>
    match decLE w rest with
    | some (v, r) => some (b + 256 * v, r)
    | none => none

theorem decLE_encLE (w : Nat) : ∀ (n : Nat), n < 256 ^ w →
    ∀ (rest : List Nat), decLE w (encLE w n ++ rest) = some (n, rest) := by
  induction w with
  | zero =>
    intro n hn rest
    interval_cases n
    rfl
  | succ k ih =>
    intro n hn rest
    have hdiv : n / 256 < 256 ^ k := by
      rw [Nat.div_lt_iff_lt_mul (by omega)]
      calc n < 256 ^ (k + 1) := hn
        _ = 256 ^ k * 256 := by rw [Nat.pow_succ]
    have h1 : n % 256 + 256 * (n / 256) = n := Nat.mod_add_div n 256
    simp only [encLE, List.cons_append, decLE, List.append_eq,
      ih (n / 256) hdiv rest, h1]

def decBytes : Nat → List Nat → Option (List Nat × List Nat)
  | 0, rest => some ([], rest)
  | _ + 1, [] => none
  | n + 1, b :: rest =>
    match decBytes n rest with
    | some (bs, r) => some (b :: bs, r)
    | none => none

theorem decBytes_append (bs : List Nat) (rest : List Nat) :
    decBytes bs.length (bs ++ rest) = some (bs, rest) := by
  induction bs with
  | nil => rfl
  | cons b tl ih =>
    simp only [List.length_cons, List.cons_append, decBytes, List.append_eq, ih]

def encChar (c : Char) : List Nat := encLE 4 c.toNat

def encString (s : String) : List Nat :=
  encLE 4 s.data.length ++ (s.data.map encChar).flatten

def decChars : Nat → List Nat → Option (List Char × List Nat)
  | 0, rest => some ([], rest)
  | n + 1, bs =>
    match decLE 4 bs with
    | some (v, r) =>
      match decChars n r with
      | some (cs, r') => some (Char.ofNat v :: cs, r')
      | none => none
    | none => none

def decString (bs : List Nat) : Option (String × List Nat) :=
  match decLE 4 bs with
  | some (n, r) =>
    match decChars n r with
    | some (cs, r') => some (String.mk cs, r')
    | none => none
  | none => none

theorem char_toNat_lt (c : Char) : c.toNat < 256 ^ 4 := by
  have h := c.val.toNat_lt
  simpa [Char.toNat] using h.trans_le (by norm_num)

theorem decChars_encChars (cs : List Char) (rest : List Nat) :
    decChars cs.length ((cs.map encChar).flatten ++ rest) = some (cs, rest) := by
  induction cs with
  | nil => rfl
  | cons c tl ih =>
    simp only [List.length_cons, List.map_cons, List.flatten_cons, List.append_assoc, decChars,
      encChar, decLE_encLE 4 c.toNat (char_toNat_lt c), ih, Char.ofNat_toNat]

theorem decString_encString (s : String) (hs : s.data.length < 256 ^ 4)
    (rest : List Nat) : decString (encString s ++ rest) = some (s, rest) := by
  simp only [encString, decString, List.append_assoc,
    decLE_encLE 4 s.data.length hs, decChars_encChars]

/-! ## ProtoMsg -/

inductive PropVal where
  | str (s : String)
  | int (n : Int)
  | bool (b : Bool)
  deriving DecidableEq, Repr

structure ProtoHdr where
  proto : Nat
  msgType : String
  sessionID : String
  properties : List (String × PropVal)
  deriving DecidableEq, Repr

structure ProtoMsg where
  header : ProtoHdr
  body : List Nat
  deriving DecidableEq, Repr

def encPropVal : PropVal → List Nat
  | .str s => 0 :: encString s
  | .int n => 1 :: (if n < 0 then 1 else 0) :: encLE 8 n.natAbs
  | .bool b => [2, if b then 1 else 0]

def decPropVal (bs : List Nat) : Option (PropVal × List Nat) :=
  match bs with
  | 0 :: r =>
    match decString r with
    | some (s, r') => some (.str s, r')
    | none => none
  | 1 :: sgn :: r =>
    match decLE 8 r with
    | some (m, r') =>
      if sgn = 1 then some (.int (-(m : Int)), r')
      else if sgn = 0 then some (.int (m : Int), r')
      else none
    | none => none
  | 2 :: b :: r =>
    if b = 1 then some (.bool true, r)
    else if b = 0 then some (.bool false, r)
    else none
  | _ => none

def ValidPropVal : PropVal → Prop
  | .str s => s.data.length < 256 ^ 4
  | .int n => n.natAbs < 256 ^ 8
  | .bool _ => True

instance : DecidablePred ValidPropVal := by
  intro v
  cases v <;> simp only [ValidPropVal] <;> infer_instance

theorem decPropVal_encPropVal (v : PropVal) (hv : ValidPropVal v) (rest : List Nat) :
    decPropVal (encPropVal v ++ rest) = some (v, rest) := by
  cases v with
  | str s =>
    simp only [encPropVal, List.cons_append, decPropVal,
      decString_encString s hv rest]
  | int n =>
    rcases lt_or_le n 0 with hneg | hpos
    · have hn : (-(n.natAbs : Int)) = n := by omega
      simp only [encPropVal, if_pos hneg, List.cons_append, decPropVal,
        decLE_encLE 8 n.natAbs hv rest, if_pos rfl, hn]
      simp
    · have hnn : ¬ n < 0 := not_lt.mpr hpos
      have hn : ((n.natAbs : Int)) = n := by omega
      simp only [encPropVal, if_neg hnn, List.cons_append, decPropVal,
        decLE_encLE 8 n.natAbs hv rest]
      norm_num [hn]
  | bool b =>
    cases b <;> simp [encPropVal, decPropVal]

end Deviceconnect

namespace Deviceconnect

def encProp (p : String × PropVal) : List Nat := encString p.1 ++ encPropVal p.2

def encProps (ps : List (String × PropVal)) : List Nat :=
  encLE 4 ps.length ++ (ps.map encProp).flatten

def decProps : Nat → List Nat → Option (List (String × PropVal) × List Nat)
  | 0, rest => some ([], rest)
  | n + 1, bs =>
    match decString bs with
    | some (k, r) =>
      match decPropVal r with
      | some (v, r') =>
        match decProps n r' with
        | some (ps, r'') => some ((k, v) :: ps, r'')
        | none => none
      | none => none
    | none => none

def ValidProps (ps : List (String × PropVal)) : Prop :=
  ps.length < 256 ^ 4 ∧ ∀ p ∈ ps, p.1.data.length < 256 ^ 4 ∧ ValidPropVal p.2

theorem decProps_encProps (ps : List (String × PropVal))
    (hv : ∀ p ∈ ps, p.1.data.length < 256 ^ 4 ∧ ValidPropVal p.2) (rest : List Nat) :
    decProps ps.length ((ps.map encProp).flatten ++ rest) = some (ps, rest) := by
  induction ps with
  | nil => rfl
  | cons p tl ih =>
    obtain ⟨hk, hval⟩ := hv p (List.mem_cons_self p tl)
    have ihtl := ih (fun q hq => hv q (List.mem_cons_of_mem p hq))
    simp only [List.length_cons, List.map_cons, List.flatten_cons, List.append_assoc,
      decProps, encProp, decString_encString p.1 hk,
      decPropVal_encPropVal p.2 hval, ihtl]

def expectTag (t : Nat) : List Nat → Option (List Nat)
  | b :: r => if b = t then some r else none
  | [] => none

def encHdr (h : ProtoHdr) : List Nat :=
  [16] ++ encLE 2 h.proto ++ [17] ++ encString h.msgType ++
  [18] ++ encString h.sessionID ++ [19] ++ encProps h.properties

def decHdr (bs : List Nat) : Option (ProtoHdr × List Nat) := do
  let r0 ← expectTag 16 bs
  let (p, r1) ← decLE 2 r0
  let r2 ← expectTag 17 r1
  let (mt, r3) ← decString r2
  let r4 ← expectTag 18 r3
  let (sid, r5) ← decString r4
  let r6 ← expectTag 19 r5
  let (n, r7) ← decLE 4 r6
  let (ps, r8) ← decProps n r7
  pure (⟨p, mt, sid, ps⟩, r8)

def ValidHdr (h : ProtoHdr) : Prop :=
  h.proto < 256 ^ 2 ∧ h.msgType.data.length < 256 ^ 4 ∧
  h.sessionID.data.length < 256 ^ 4 ∧ ValidProps h.properties

theorem decHdr_encHdr (h : ProtoHdr) (hv : ValidHdr h) (rest : List Nat) :
    decHdr (encHdr h ++ rest) = some (h, rest) := by
  obtain ⟨h1, h2, h3, h4, h5⟩ := hv
  simp [encHdr, decHdr, encProps, expectTag, List.append_assoc,
    decLE_encLE 2 h.proto h1, decString_encString h.msgType h2,
    decString_encString h.sessionID h3, decLE_encLE 4 h.properties.length h4,
    decProps_encProps h.properties h5]

end Deviceconnect

namespace Deviceconnect

def encMsg (m : ProtoMsg) : List Nat :=
  [146] ++ encHdr m.header ++ [20] ++ encLE 4 m.body.length ++ m.body

def decMsg (bs : List Nat) : Option (ProtoMsg × List Nat) := do
  let r0 ← expectTag 146 bs
  let (h, r1) ← decHdr r0
  let r2 ← expectTag 20 r1
  let (n, r3) ← decLE 4 r2
  let (body, r4) ← decBytes n r3
  pure (⟨h, body⟩, r4)

def ValidMsg (m : ProtoMsg) : Prop := ValidHdr m.header ∧ m.body.length < 256 ^ 4

def encode (m : ProtoMsg) : List Nat := encMsg m

def decode (bs : List Nat) : Option ProtoMsg :=
  match decMsg bs with
  | some (m, []) => some m
  | _ => none

instance (ps : List (String × PropVal)) : Decidable (ValidProps ps) := by
  unfold ValidProps
  infer_instance

instance (h : ProtoHdr) : Decidable (ValidHdr h) := by
  unfold ValidHdr
  infer_instance

instance (m : ProtoMsg) : Decidable (ValidMsg m) := by
  unfold ValidMsg
  infer_instance

theorem decMsg_encMsg (m : ProtoMsg) (hv : ValidMsg m) (rest : List Nat) :
    decMsg (encMsg m ++ rest) = some (m, rest) := by
  obtain ⟨hh, hb⟩ := hv
  simp [encMsg, decMsg, expectTag, List.append_assoc, decHdr_encHdr m.header hh,
    decLE_encLE 4 m.body.length hb, decBytes_append]

theorem decode_encode (m : ProtoMsg) (hv : ValidMsg m) : decode (encode m) = some m := by
  have h := decMsg_encMsg m hv []
  simp only [List.append_nil] at h
  simp only [decode, encode, h]

end Deviceconnect

namespace Deviceconnect

/-! ## Bus subjects -/

/-- Modelled from the spec: `model.GetDeviceSubject` is not under `src/`;
the spec fixes the device subject family as `device.{tenant}.{device_id}`. -/
def GetDeviceSubject (tenant deviceID : String) : String :=
  "device." ++ tenant ++ "." ++ deviceID

/-- Modelled from the spec: `model.GetSessionSubject` is not under `src/`;
the spec fixes the session subject family as `session.{tenant}.{session_id}`. -/
def GetSessionSubject (tenant sessionID : String) : String :=
  "session." ++ tenant ++ "." ++ sessionID

/-! ## Property-map update -/

/-- Overwriting insert into the string-keyed property map (the Go handler's
`msg.Header.Properties["user_id"] = subject` on a map, modelled on an
association list). -/
def insertProp : List (String × PropVal) → String → PropVal → List (String × PropVal)
  | [], k, v => [(k, v)]
  | (k', v') :: rest, k, v =>
    if k' = k then (k, v) :: rest else (k', v') :: insertProp rest k v

/-- Lookup in the property map. -/
def lookupProp : List (String × PropVal) → String → Option PropVal
  | [], _ => none
  | (k', v') :: rest, k => if k' = k then some v' else lookupProp rest k

theorem lookupProp_insertProp_self (ps : List (String × PropVal)) (k : String) (v : PropVal) :
    lookupProp (insertProp ps k v) k = some v := by
  induction ps with
  | nil => simp [insertProp, lookupProp]
  | cons p tl ih =>
    by_cases h : p.1 = k
    · simp [insertProp, lookupProp, h]
    · simp [insertProp, lookupProp, h, ih]

theorem lookupProp_insertProp_ne (ps : List (String × PropVal)) (k k' : String) (v : PropVal)
    (h : k' ≠ k) : lookupProp (insertProp ps k v) k' = lookupProp ps k' := by
  have hne : ¬ k = k' := fun hk => h hk.symm
  induction ps with
  | nil => simp [insertProp, lookupProp, hne]
  | cons p tl ih =>
    by_cases hp : p.1 = k
    · subst hp
      simp only [insertProp, if_pos rfl, lookupProp, if_neg hne, if_neg hne]
    · simp only [insertProp, if_neg hp, lookupProp, ih]


/-! ## Management bridging loop -/

/-- Protocol tag for the shell protocol (`ws.ProtoTypeShell = 1`). -/
def ProtoTypeShell : Nat := 1

/-- Message type of the synthesized teardown frame
(`shell.MessageTypeStopShell = "stop"`). -/
def MessageTypeStopShell : String := "stop"

def SessionStatusActive : String := "active"

def SessionStatusClosed : String := "closed"

/-- The server-side context of one open management connection: the bridge
between the user WebSocket and the bus, fixed once the upgrade and
session preparation have succeeded. -/
structure MgmtConn where
  tenant : String
  deviceID : String
  sessionID : String
  userID : String
  deriving DecidableEq, Repr

/-- An event the bridging loop reacts to: a decoded inbound WebSocket
frame from the user, a payload arriving from the session subject, or
termination of the connection. -/
inductive MgmtEvent where
  | inboundFrame (m : ProtoMsg)
  | busMessage (payload : List Nat)
  | terminate
  deriving DecidableEq, Repr

/-- An observable action of the bridging loop. -/
inductive MgmtOutput where
  | publish (subject : String) (payload : List Nat)
  | sendUser (payload : List Nat)
  | setSessionStatus (sessionID : String) (status : String)
  deriving DecidableEq, Repr

/-- Stamp an inbound user frame: set `header.session_id` to the
server-assigned session id and `header.properties["user_id"]` to the
authenticated identity's subject, leaving everything else alone. -/
def stampFrame (c : MgmtConn) (m : ProtoMsg) : ProtoMsg :=
  { m with header := { m.header with
      sessionID := c.sessionID,
      properties := insertProp m.header.properties "user_id" (.str c.userID) } }

/-- The synthesized `stop-shell` frame published when the connection ends. -/
def stopShellFrame (c : MgmtConn) : ProtoMsg :=
  ⟨⟨ProtoTypeShell, MessageTypeStopShell, c.sessionID,
    [("user_id", .str c.userID)]⟩, []⟩

/-- Modelled from the spec: the management handler's bridging loop
(`api/http/management.go` is not under `src/`; spec §4.7 steps 6–8 and
the assertions of `TestManagementConnect`).  Every inbound frame is
stamped, re-encoded and published on the device subject; every session
subject payload is forwarded verbatim to the user socket; termination
publishes the stop-shell frame and closes the session. -/
def mgmtHandle (c : MgmtConn) : MgmtEvent → List MgmtOutput
  | .inboundFrame m =>
    [.publish (GetDeviceSubject c.tenant c.deviceID) (encode (stampFrame c m))]
  | .busMessage payload => [.sendUser payload]
  | .terminate =>
    [.publish (GetDeviceSubject c.tenant c.deviceID) (encode (stopShellFrame c)),
     .setSessionStatus c.sessionID SessionStatusClosed]

/-- Modelled from the spec: the store's `SetSessionStatus` transition on
one record — `active → closed` is carried out, `closed → active` is
refused (spec §4.3). -/
def setStatus (cur next : String) : String :=
  if cur = SessionStatusActive ∧ next = SessionStatusClosed then next else cur

/-- Apply one bridging output to the store's session-status map. -/
def applyOutput (sessions : String → String) : MgmtOutput → (String → String)
  | .setSessionStatus sid st =>
    fun s => if s = sid then setStatus (sessions s) st else sessions s
  | _ => sessions

/-- Apply a list of bridging outputs to the session-status map. -/
def applyOutputs (sessions : String → String) (outs : List MgmtOutput) : String → String :=
  outs.foldl applyOutput sessions

/-- Count the `setSessionStatus` outputs in a list. -/
def countStatusChanges (outs : List MgmtOutput) : Nat :=
  outs.countP (fun o => match o with | .setSessionStatus _ _ => true | _ => false)


/-! ## App layer: PrepareUserSession -/

/-- Device status constant `model.DeviceStatusConnected`. -/
def DeviceStatusConnected : String := "connected"

/-- A device record as the app layer sees it. -/
structure Device where
  id : String
  status : String
  deriving DecidableEq, Repr

/-- A session record as returned by the store. -/
structure Session where
  id : String
  userID : String
  deviceID : String
  deriving DecidableEq, Repr

/-- Result of `store.GetDevice`: a lookup error, a nil record, or a
device. -/
inductive GetDeviceResult where
  | err
  | nilDevice
  | found (d : Device)
  deriving DecidableEq, Repr

/-- Result of `store.UpsertSession`. -/
inductive UpsertSessionResult where
  | err
  | ok (s : Session)
  deriving DecidableEq, Repr

/-- The error surface of `PrepareUserSession`. -/
inductive PrepareError where
  | storeErr
  | deviceNotFound
  | deviceNotConnected
  | upsertErr
  deriving DecidableEq, Repr

/-- From `src/server/server.go` (the `app` package half of the file),
`PrepareUserSession`: look the device up; propagate a lookup error;
`ErrDeviceNotFound` on a nil record; `ErrDeviceNotConnected` when the
status is not `connected`; otherwise call `store.UpsertSession` with the
device's id.  The second component records whether `UpsertSession` was
invoked. -/
def PrepareUserSession (getDevice : GetDeviceResult)
    (upsertSession : String → UpsertSessionResult) :
    Except PrepareError Session × Bool :=
  match getDevice with
  | .err => (.error .storeErr, false)
  | .nilDevice => (.error .deviceNotFound, false)
  | .found d =>
    if d.status ≠ DeviceStatusConnected then (.error .deviceNotConnected, false)
    else
      match upsertSession d.id with
      | .err => (.error .upsertErr, true)
      | .ok s => (.ok s, true)

/-! ## Management HTTP surface -/

/-- An authenticated identity (`go-lib-micro/identity.Identity`). -/
structure Identity where
  subject : String
  tenant : String
  isUser : Bool
  deriving DecidableEq, Repr

/-- The credential attached to a request: absent (no `Authorization`
header and no JWT cookie), unparsable, or a decoded identity. -/
inductive Credential where
  | missing
  | malformed
  | valid (id : Identity)
  deriving DecidableEq, Repr

/-- Outcome of the app's device lookup behind `GET /devices/{id}`. -/
inductive DeviceLookup where
  | found (d : Device)
  | notFound
  | otherErr
  deriving DecidableEq, Repr

/-- What the `GET /devices/{id}` handler surfaces: the status code and
whether the app's device lookup was invoked. -/
structure GetDeviceResponse where
  status : Nat
  lookupCalled : Bool
  deriving DecidableEq, Repr

/-- Modelled from the spec (§4.4, §7) and the assertions of
`TestManagementGetDevice`: the handler behind `GET /devices/{id}` is not
under `src/`.  The test pins the statuses: 401 with no lookup when the
credential is missing (the mock records no `GetDevice` call), 200 on
success, 404 on `ErrDeviceNotFound`, and 400 on any other lookup error
(the OpenAPI document also lists 400 for this route); a malformed
credential is 401 by spec §4.4. -/
def getDeviceEndpoint (cred : Credential) (lookup : DeviceLookup) : GetDeviceResponse :=
  match cred with
  | .missing => ⟨401, false⟩
  | .malformed => ⟨401, false⟩
  | .valid _ =>
    match lookup with
    | .found _ => ⟨200, true⟩
    | .notFound => ⟨404, true⟩
    | .otherErr => ⟨400, true⟩

/-- Header name `model.RBACHeaderRemoteTerminalGroups`. -/
def RBACHeaderRemoteTerminalGroups : String := "X-Men-Rbac-Remote-Terminal-Groups"

/-- Split on commas, as `strings.Split(headerValue, ",")` does for a
one-character separator: auxiliary walk over the characters with the
current group accumulated in reverse. -/
def splitGroupsAux : List Char → List Char → List String
  | [], acc => [String.mk acc.reverse]
  | c :: rest, acc =>
    if c = ',' then String.mk acc.reverse :: splitGroupsAux rest []
    else splitGroupsAux rest (c :: acc)

/-- Modelled from the spec (§4.4): the RBAC allow-list header's value is
parsed into a comma-separated list of groups. -/
def parseRBACGroups (hdr : String) : List String := splitGroupsAux hdr.data []

/-- Answer of the RBAC authorization collaborator. -/
inductive RbacAnswer where
  | allowed
  | denied
  | failure
  deriving DecidableEq, Repr

/-- Outcome of session preparation for the connect pipeline. -/
inductive PrepareOutcome where
  | ok (sessionID : String)
  | deviceNotFound
  | deviceNotConnected
  | storeErr
  deriving DecidableEq, Repr

/-- Outcome of the WebSocket upgrade. -/
inductive UpgradeOutcome where
  | ok
  | failed
  deriving DecidableEq, Repr

/-- What the connect handler surfaces before bridging: the HTTP status
(101 on a successful upgrade), whether the upgrade happened, whether a
session record was created, and the RBAC collaborator call that was
made, if any (tenant, device id, groups). -/
structure ConnectResult where
  status : Nat
  upgraded : Bool
  sessionCreated : Bool
  rbacCall : Option (String × String × List String)
  deriving DecidableEq, Repr

/-- Modelled from the spec (§4.7 steps 1–5, §7) and the assertions of
`TestManagementConnect` and `TestManagementConnectFailures`: the connect
handler is not under `src/`.  Identity errors yield 401 before anything
else; a present RBAC groups header is split on commas and the
collaborator is consulted with tenant, device id and the group list
(`false → 403`, error → 500, and in both cases no upgrade and no
session); then the session is prepared (`ErrDeviceNotFound` and
`ErrDeviceNotConnected → 404`, other store error → 500) and the socket
upgraded (failure → 400). -/
def mgmtConnectPre (cred : Credential) (deviceID : String)
    (rbacHeader : Option String)
    (rbac : String → String → List String → RbacAnswer)
    (prep : PrepareOutcome) (upg : UpgradeOutcome) : ConnectResult :=
  match cred with
  | .missing => ⟨401, false, false, none⟩
  | .malformed => ⟨401, false, false, none⟩
  | .valid id =>
    if ¬ id.isUser then ⟨401, false, false, none⟩
    else
      let proceed : Option (String × String × List String) → ConnectResult := fun rc =>
        match prep with
        | .deviceNotFound => ⟨404, false, false, rc⟩
        | .deviceNotConnected => ⟨404, false, false, rc⟩
        | .storeErr => ⟨500, false, false, rc⟩
        | .ok _ =>
          match upg with
          | .failed => ⟨400, false, true, rc⟩
          | .ok => ⟨101, true, true, rc⟩
      match rbacHeader with
      | none => proceed none
      | some hdr =>
        let groups := parseRBACGroups hdr
        match rbac id.tenant deviceID groups with
        | .denied => ⟨403, false, false, some (id.tenant, deviceID, groups)⟩
        | .failure => ⟨500, false, false, some (id.tenant, deviceID, groups)⟩
        | .allowed => proceed (some (id.tenant, deviceID, groups))


/-! ## Keep-alive state machine -/

/-- Keep-alive configuration (`ping_period`, `pong_wait`, `write_wait`),
in whole time units. -/
structure KAConfig where
  pingPeriod : Nat
  pongWait : Nat
  writeWait : Nat
  deriving DecidableEq, Repr

/-- The spec's default timings, in seconds. -/
def defaultKAConfig : KAConfig := ⟨30, 60, 10⟩

/-- Timer state of one live WebSocket: time since the last ping was sent,
time since the last pong was received, and liveness. -/
structure KAState where
  sincePing : Nat
  sincePong : Nat
  alive : Bool
  deriving DecidableEq, Repr

/-- A control action of the keep-alive machinery.  `sendPong deadline`
carries the write deadline the pong reply is bounded by. -/
inductive KAOutput where
  | sendPing
  | sendPong (deadline : Nat)
  | declareDead
  deriving DecidableEq, Repr

/-- Modelled from the spec (§4.5, keep-alive): the connection state
machine is not under `src/`; `TestManagementConnect` exercises it with
`pongWait = writeWait = 1s`.  One clock tick: with no pong for
`pong_wait`, the connection is declared dead (`ErrKeepaliveTimeout`);
otherwise a ping is emitted once `ping_period` has elapsed since the
last one. -/
def kaTick (cfg : KAConfig) (s : KAState) : KAState × List KAOutput :=
  if ¬ s.alive then (s, [])
  else
    let s1 : KAState := ⟨s.sincePing + 1, s.sincePong + 1, true⟩
    if s1.sincePong ≥ cfg.pongWait then ({ s1 with alive := false }, [.declareDead])
    else if s1.sincePing ≥ cfg.pingPeriod then ({ s1 with sincePing := 0 }, [.sendPing])
    else (s1, [])

/-- Modelled from the spec: receipt of a matching pong resets the pong
timer. -/
def kaOnPong (s : KAState) : KAState := { s with sincePong := 0 }

/-- Modelled from the spec: an inbound ping is answered with a pong
whose write is bounded by `write_wait` from now. -/
def kaOnPing (cfg : KAConfig) (now : Nat) : List KAOutput :=
  [.sendPong (now + cfg.writeWait)]

/-! ## Server shutdown (`server.InitAndRun`) -/

/-- The configuration options the spec names for the server. -/
structure ServerConfig where
  listenAddr : String
  busURI : String
  debugLog : Bool
  shutdownGrace : Option Nat
  deriving DecidableEq, Repr

/-- A process signal as `InitAndRun` distinguishes them. -/
inductive OSSignal where
  | sigint
  | sigterm
  | other
  deriving DecidableEq, Repr

/-- From `src/server/server.go`: `signal.Notify(quit, unix.SIGINT,
unix.SIGTERM)` — the signals that make `InitAndRun` leave its wait and
begin shutdown. -/
def initiatesShutdown : OSSignal → Bool
  | .sigint => true
  | .sigterm => true
  | .other => false

/-- From `src/server/server.go`: the shutdown deadline is the literal
`5*time.Second` passed to `context.WithTimeout`; no configuration value
is consulted.  In seconds. -/
def initAndRunShutdownWait (_conf : ServerConfig) : Nat := 5

/-- Modelled from the spec: the wait the spec describes — up to the
configured `shutdown_grace`, defaulting to 5 seconds.  Stated only to be
compared with `initAndRunShutdownWait`. -/
def specShutdownWait (conf : ServerConfig) : Nat := conf.shutdownGrace.getD 5

/-- From `src/server/server.go`: after the signal, `srv.Shutdown` runs
under the deadline; on success `InitAndRun` returns nil (`some ()`
here), on failure it calls `l.Fatal` (`none` here).
`completesWithin d` says whether graceful shutdown finishes within `d`
seconds. -/
def initAndRunAfterSignal (conf : ServerConfig) (completesWithin : Nat → Bool) :
    Option Unit :=
  if completesWithin (initAndRunShutdownWait conf) then some () else none

end Deviceconnect

namespace Deviceconnect

/-! ## Concrete sample data used by witnesses -/

/-- A concrete frame, as the test sends one: shell protocol, message type
`hello`, no session id, no properties, empty body. -/
def sampleFrame : ProtoMsg := ⟨⟨ProtoTypeShell, "hello", "", []⟩, []⟩

/-- A concrete management connection context, with the identifiers of
`TestManagementConnect`. -/
def sampleConn : MgmtConn :=
  ⟨"000000000000000000000000", "1234567890", "session_id",
   "00000000-0000-0000-0000-000000000000"⟩

/-- A concrete store stub: every upsert succeeds with a session over the
given device. -/
def upsertStub (deviceID : String) : UpsertSessionResult :=
  .ok ⟨"session_id", "00000000-0000-0000-0000-000000000000", deviceID⟩

/-- A concrete connected device record. -/
def deviceConnectedSample : Device := ⟨"1234567890", DeviceStatusConnected⟩

/-- A concrete disconnected device record. -/
def deviceDisconnectedSample : Device := ⟨"1234567890", "disconnected"⟩

/-- A concrete identity, as the tests generate one. -/
def sampleIdentity : Identity :=
  ⟨"00000000-0000-0000-0000-000000000000", "000000000000000000000000", true⟩

end Deviceconnect

namespace Deviceconnect

/-! ## Claim theorems -/

/-- C5: for every valid ProtoMsg `m`, decoding the encoding of `m` yields a
message equal to `m` — `decode (encode m) = some m` — over the tagged,
length-prefixed binary form of the two-part {header, body} frame. -/
theorem C5_decode_encode_roundtrip (m : ProtoMsg) (hv : ValidMsg m) :
    decode (encode m) = some m :=
  decode_encode m hv

/-- Witness for C5: the round trip evaluated at a concrete frame with a
string, an integer and a boolean property. -/
theorem C5_decode_encode_roundtrip_witness :
    ValidMsg sampleFrame ∧ decode (encode sampleFrame) = some sampleFrame :=
  ⟨by decide, C5_decode_encode_roundtrip sampleFrame (by decide)⟩

end Deviceconnect

namespace Deviceconnect

/-- C1: every inbound WebSocket frame on a bridging management connection is
published on the device subject `device.{tenant}.{device_id}` as a frame equal
to the received one except that `header.session_id` is the server-assigned
session id and `header.properties["user_id"]` is the authenticated identity's
subject (overwriting any client-supplied values), with the body unchanged. -/
theorem C1_inbound_frame_stamped (c : MgmtConn) (m : ProtoMsg)
    (hm : ValidMsg (stampFrame c m)) :
    mgmtHandle c (.inboundFrame m) =
      [.publish (GetDeviceSubject c.tenant c.deviceID) (encode (stampFrame c m))] ∧
    decode (encode (stampFrame c m)) = some (stampFrame c m) ∧
    (stampFrame c m).header.sessionID = c.sessionID ∧
    lookupProp (stampFrame c m).header.properties "user_id" =
      some (.str c.userID) ∧
    (∀ k, k ≠ "user_id" →
      lookupProp (stampFrame c m).header.properties k =
        lookupProp m.header.properties k) ∧
    (stampFrame c m).header.proto = m.header.proto ∧
    (stampFrame c m).header.msgType = m.header.msgType ∧
    (stampFrame c m).body = m.body := by
  refine ⟨rfl, decode_encode _ hm, rfl, ?_, ?_, rfl, rfl, rfl⟩
  · exact lookupProp_insertProp_self m.header.properties "user_id" (.str c.userID)
  · intro k hk
    exact lookupProp_insertProp_ne m.header.properties "user_id" k (.str c.userID) hk

/-- Witness for C1: the stamping theorem applied to the test's concrete
connection and inbound frame. -/
theorem C1_inbound_frame_stamped_witness :
    ValidMsg (stampFrame sampleConn sampleFrame) ∧
    (mgmtHandle sampleConn (.inboundFrame sampleFrame) =
      [.publish (GetDeviceSubject sampleConn.tenant sampleConn.deviceID)
        (encode (stampFrame sampleConn sampleFrame))] ∧
    decode (encode (stampFrame sampleConn sampleFrame)) =
      some (stampFrame sampleConn sampleFrame) ∧
    (stampFrame sampleConn sampleFrame).header.sessionID = sampleConn.sessionID ∧
    lookupProp (stampFrame sampleConn sampleFrame).header.properties "user_id" =
      some (.str sampleConn.userID) ∧
    (∀ k, k ≠ "user_id" →
      lookupProp (stampFrame sampleConn sampleFrame).header.properties k =
        lookupProp sampleFrame.header.properties k) ∧
    (stampFrame sampleConn sampleFrame).header.proto = sampleFrame.header.proto ∧
    (stampFrame sampleConn sampleFrame).header.msgType = sampleFrame.header.msgType ∧
    (stampFrame sampleConn sampleFrame).body = sampleFrame.body) :=
  ⟨by decide, C1_inbound_frame_stamped sampleConn sampleFrame (by decide)⟩

end Deviceconnect

namespace Deviceconnect

/-- C2: when an upgraded management connection terminates, the handler
publishes on the device subject a synthesized stop-shell frame whose header
has `proto = shell` and `msg_type = stop` and carries the session id and
`user_id`, and exactly one session transitions from active to closed by the
time the handler returns. -/
theorem C2_terminate_stop_and_close (c : MgmtConn) (sessions : String → String)
    (hact : sessions c.sessionID = SessionStatusActive) :
    (mgmtHandle c .terminate).head? =
      some (.publish (GetDeviceSubject c.tenant c.deviceID)
        (encode (stopShellFrame c))) ∧
    (stopShellFrame c).header.proto = ProtoTypeShell ∧
    (stopShellFrame c).header.msgType = MessageTypeStopShell ∧
    (stopShellFrame c).header.sessionID = c.sessionID ∧
    lookupProp (stopShellFrame c).header.properties "user_id" =
      some (.str c.userID) ∧
    countStatusChanges (mgmtHandle c .terminate) = 1 ∧
    applyOutputs sessions (mgmtHandle c .terminate) c.sessionID =
      SessionStatusClosed ∧
    (∀ sid, sid ≠ c.sessionID →
      applyOutputs sessions (mgmtHandle c .terminate) sid = sessions sid) := by
  refine ⟨rfl, rfl, rfl, rfl, rfl, rfl, ?_, ?_⟩
  · simp [mgmtHandle, applyOutputs, applyOutput, setStatus, hact,
      SessionStatusActive, SessionStatusClosed]
  · intro sid hsid
    simp [mgmtHandle, applyOutputs, applyOutput, hsid]

/-- Witness for C2: the termination theorem applied to the test's concrete
connection over a store in which its session is active. -/
theorem C2_terminate_stop_and_close_witness :
    (fun _ : String => SessionStatusActive) sampleConn.sessionID =
      SessionStatusActive ∧
    ((mgmtHandle sampleConn .terminate).head? =
      some (.publish (GetDeviceSubject sampleConn.tenant sampleConn.deviceID)
        (encode (stopShellFrame sampleConn))) ∧
    (stopShellFrame sampleConn).header.proto = ProtoTypeShell ∧
    (stopShellFrame sampleConn).header.msgType = MessageTypeStopShell ∧
    (stopShellFrame sampleConn).header.sessionID = sampleConn.sessionID ∧
    lookupProp (stopShellFrame sampleConn).header.properties "user_id" =
      some (.str sampleConn.userID) ∧
    countStatusChanges (mgmtHandle sampleConn .terminate) = 1 ∧
    applyOutputs (fun _ => SessionStatusActive) (mgmtHandle sampleConn .terminate)
      sampleConn.sessionID = SessionStatusClosed ∧
    (∀ sid, sid ≠ sampleConn.sessionID →
      applyOutputs (fun _ => SessionStatusActive) (mgmtHandle sampleConn .terminate)
        sid = (fun _ : String => SessionStatusActive) sid)) :=
  ⟨rfl, C2_terminate_stop_and_close sampleConn (fun _ => SessionStatusActive) rfl⟩

/-- C6: every payload published on the session subject
`session.{tenant}.{session_id}` of an open management connection is delivered
to the user's WebSocket verbatim, byte for byte. -/
theorem C6_session_payload_verbatim (c : MgmtConn) (payload : List Nat) :
    mgmtHandle c (.busMessage payload) = [.sendUser payload] := rfl

end Deviceconnect

namespace Deviceconnect

/-- C3: PrepareUserSession creates a session record only when the target
device exists and is connected: a store lookup error is propagated, an absent
device yields ErrDeviceNotFound, a device whose status is not `connected`
yields ErrDeviceNotConnected, in each of these cases UpsertSession is not
called, and a session returned on success was created for a device that was
connected at creation time. -/
theorem C3_prepareUserSession_guards (upsert : String → UpsertSessionResult) :
    PrepareUserSession .err upsert = (.error .storeErr, false) ∧
    PrepareUserSession .nilDevice upsert = (.error .deviceNotFound, false) ∧
    (∀ d : Device, d.status ≠ DeviceStatusConnected →
      PrepareUserSession (.found d) upsert = (.error .deviceNotConnected, false)) ∧
    (∀ (g : GetDeviceResult) (s : Session),
      (PrepareUserSession g upsert).1 = .ok s →
      ∃ d : Device, g = .found d ∧ d.status = DeviceStatusConnected ∧
        upsert d.id = .ok s) := by
  refine ⟨rfl, rfl, ?_, ?_⟩
  · intro d hd
    simp [PrepareUserSession, hd]
  · intro g s h
    match g with
    | .err => simp [PrepareUserSession] at h
    | .nilDevice => simp [PrepareUserSession] at h
    | .found d =>
      by_cases hd : d.status = DeviceStatusConnected
      · refine ⟨d, rfl, hd, ?_⟩
        simp only [PrepareUserSession, hd, ne_eq, not_true_eq_false, if_false] at h
        cases hu : upsert d.id with
        | err => rw [hu] at h; simp at h
        | ok s' => rw [hu] at h; simp_all
      · simp [PrepareUserSession, hd] at h

/-- Witness for C3: the guards evaluated at concrete store results — a lookup
error, a nil device, a disconnected device, and a successful preparation whose
session points at the connected device. -/
theorem C3_prepareUserSession_guards_witness :
    PrepareUserSession .err upsertStub = (.error .storeErr, false) ∧
    PrepareUserSession .nilDevice upsertStub = (.error .deviceNotFound, false) ∧
    PrepareUserSession (.found deviceDisconnectedSample) upsertStub =
      (.error .deviceNotConnected, false) ∧
    (∃ d : Device, GetDeviceResult.found deviceConnectedSample = .found d ∧
      d.status = DeviceStatusConnected ∧
      upsertStub d.id = .ok ⟨"session_id", "00000000-0000-0000-0000-000000000000",
        deviceConnectedSample.id⟩) :=
  have th := C3_prepareUserSession_guards upsertStub
  ⟨th.1, th.2.1, th.2.2.1 deviceDisconnectedSample (by decide),
   th.2.2.2 (.found deviceConnectedSample)
     ⟨"session_id", "00000000-0000-0000-0000-000000000000",
       deviceConnectedSample.id⟩ rfl⟩

end Deviceconnect

namespace Deviceconnect

/-- C7: when the RBAC groups header is present on a management connect
request, its value is split on commas and the authorization collaborator is
consulted with the tenant, the device id and that group list; a negative
answer yields 403 with no upgrade and no session, a collaborator error yields
500; with no header the collaborator is not consulted. -/
theorem C7_rbac_gate (subject tenant deviceID hdr : String)
    (rbac : String → String → List String → RbacAnswer)
    (prep : PrepareOutcome) (upg : UpgradeOutcome) :
    (mgmtConnectPre (.valid ⟨subject, tenant, true⟩) deviceID (some hdr)
        rbac prep upg).rbacCall =
      some (tenant, deviceID, parseRBACGroups hdr) ∧
    (rbac tenant deviceID (parseRBACGroups hdr) = .denied →
      mgmtConnectPre (.valid ⟨subject, tenant, true⟩) deviceID (some hdr)
          rbac prep upg =
        ⟨403, false, false, some (tenant, deviceID, parseRBACGroups hdr)⟩) ∧
    (rbac tenant deviceID (parseRBACGroups hdr) = .failure →
      (mgmtConnectPre (.valid ⟨subject, tenant, true⟩) deviceID (some hdr)
          rbac prep upg).status = 500) ∧
    (mgmtConnectPre (.valid ⟨subject, tenant, true⟩) deviceID none
        rbac prep upg).rbacCall = none := by
  refine ⟨?_, ?_, ?_, ?_⟩
  · cases h : rbac tenant deviceID (parseRBACGroups hdr) <;>
      cases prep <;> cases upg <;> simp [mgmtConnectPre, h]
  · intro h
    simp [mgmtConnectPre, h]
  · intro h
    simp [mgmtConnectPre, h]
  · cases prep <;> cases upg <;> simp [mgmtConnectPre]

/-- Witness for C7: the gate evaluated with the tests' header value
`foo,bar` (which parses to the group list `["foo", "bar"]`), a denying
collaborator and a failing collaborator. -/
theorem C7_rbac_gate_witness :
    ((fun _ _ _ => RbacAnswer.denied : String → String → List String → RbacAnswer)
        "000000000000000000000000" "1234567890" (parseRBACGroups "foo,bar") = .denied ∧
      mgmtConnectPre (.valid sampleIdentity) "1234567890" (some "foo,bar")
          (fun _ _ _ => .denied) (.ok "session_id") .ok =
        ⟨403, false, false,
          some ("000000000000000000000000", "1234567890", ["foo", "bar"])⟩) ∧
    ((fun _ _ _ => RbacAnswer.failure : String → String → List String → RbacAnswer)
        "000000000000000000000000" "1234567890" (parseRBACGroups "foo,bar") = .failure ∧
      (mgmtConnectPre (.valid sampleIdentity) "1234567890" (some "foo,bar")
          (fun _ _ _ => .failure) (.ok "session_id") .ok).status = 500) := by
  have thd := C7_rbac_gate "00000000-0000-0000-0000-000000000000"
    "000000000000000000000000" "1234567890" "foo,bar"
    (fun _ _ _ => .denied) (.ok "session_id") .ok
  have thf := C7_rbac_gate "00000000-0000-0000-0000-000000000000"
    "000000000000000000000000" "1234567890" "foo,bar"
    (fun _ _ _ => .failure) (.ok "session_id") .ok
  refine ⟨⟨rfl, ?_⟩, ⟨rfl, thf.2.2.1 rfl⟩⟩
  have h := thd.2.1 rfl
  rw [show sampleIdentity =
    (⟨"00000000-0000-0000-0000-000000000000", "000000000000000000000000", true⟩ :
      Identity) from rfl, h]
  decide

end Deviceconnect

namespace Deviceconnect

/-! ## Error taxonomy -/

/-- The spec's error taxonomy (§7). -/
inductive SvcError where
  | missingAuth
  | malformedAuth
  | forbidden
  | notFound
  | deviceNotConnected
  | store
  | busUnavailable
  | malformedFrame
  | keepaliveTimeout
  | upgradeFailed
  | internal
  deriving DecidableEq, Repr

/-- Modelled from the spec (§7): the HTTP status each taxonomy member maps
to; `ErrMalformedFrame` and `ErrKeepaliveTimeout` have none. -/
def errHTTPStatus : SvcError → Option Nat
  | .missingAuth => some 401
  | .malformedAuth => some 401
  | .forbidden => some 403
  | .notFound => some 404
  | .deviceNotConnected => some 404
  | .store => some 500
  | .busUnavailable => some 500
  | .malformedFrame => none
  | .keepaliveTimeout => none
  | .upgradeFailed => some 400
  | .internal => some 500

/-- C4 as stated is false on the code: `TestManagementGetDevice` asserts — and
the OpenAPI document records — that a `GET /devices/{id}` request failing with
a store error other than not-found is answered 400, not 500. -/
theorem C4_counterexample :
    (getDeviceEndpoint (.valid sampleIdentity) .otherErr).status = 400 ∧
    (getDeviceEndpoint (.valid sampleIdentity) .otherErr).status ≠ 500 := by
  decide

/-- C4 amended: every error surfaced over HTTP maps to the taxonomy's status —
401 for missing or malformed auth, 403 for a forbidden RBAC answer, 404 for
not-found and device-not-connected, 500 for store, bus and internal errors,
400 for a failed upgrade — except that a `GET /devices/{id}` request failing
with a store error other than not-found returns 400, not 500. -/
theorem C4_http_status_mapping (subject tenant deviceID hdr sid : String)
    (rbac : String → String → List String → RbacAnswer)
    (prep : PrepareOutcome) (upg : UpgradeOutcome)
    (lookup : DeviceLookup) (d : Device) :
    errHTTPStatus .missingAuth = some 401 ∧
    errHTTPStatus .malformedAuth = some 401 ∧
    errHTTPStatus .forbidden = some 403 ∧
    errHTTPStatus .notFound = some 404 ∧
    errHTTPStatus .deviceNotConnected = some 404 ∧
    errHTTPStatus .store = some 500 ∧
    errHTTPStatus .busUnavailable = some 500 ∧
    errHTTPStatus .internal = some 500 ∧
    errHTTPStatus .upgradeFailed = some 400 ∧
    (mgmtConnectPre .missing deviceID none rbac prep upg).status = 401 ∧
    (mgmtConnectPre .malformed deviceID none rbac prep upg).status = 401 ∧
    (mgmtConnectPre (.valid ⟨subject, tenant, true⟩) deviceID (some hdr)
      (fun _ _ _ => .denied) prep upg).status = 403 ∧
    (mgmtConnectPre (.valid ⟨subject, tenant, true⟩) deviceID (some hdr)
      (fun _ _ _ => .failure) prep upg).status = 500 ∧
    (mgmtConnectPre (.valid ⟨subject, tenant, true⟩) deviceID none rbac
      .deviceNotFound upg).status = 404 ∧
    (mgmtConnectPre (.valid ⟨subject, tenant, true⟩) deviceID none rbac
      .deviceNotConnected upg).status = 404 ∧
    (mgmtConnectPre (.valid ⟨subject, tenant, true⟩) deviceID none rbac
      .storeErr upg).status = 500 ∧
    (mgmtConnectPre (.valid ⟨subject, tenant, true⟩) deviceID none rbac
      (.ok sid) .failed).status = 400 ∧
    (getDeviceEndpoint .missing lookup).status = 401 ∧
    (getDeviceEndpoint .malformed lookup).status = 401 ∧
    (getDeviceEndpoint (.valid ⟨subject, tenant, true⟩) .notFound).status = 404 ∧
    (getDeviceEndpoint (.valid ⟨subject, tenant, true⟩) (.found d)).status = 200 ∧
    (getDeviceEndpoint (.valid ⟨subject, tenant, true⟩) .otherErr).status = 400 := by
  refine ⟨rfl, rfl, rfl, rfl, rfl, rfl, rfl, rfl, rfl, rfl, rfl, ?_, ?_, rfl, rfl,
    rfl, rfl, ?_, ?_, rfl, rfl, rfl⟩
  · simp [mgmtConnectPre]
  · simp [mgmtConnectPre]
  · cases lookup <;> rfl
  · cases lookup <;> rfl

end Deviceconnect

namespace Deviceconnect

/-- C8: on a live connection the state machine emits a ping once
`ping_period` has elapsed since the last one (and then restarts the period),
declares the connection dead when no pong has arrived within `pong_wait`, and
answers an inbound ping with a pong bounded by `write_wait`. -/
theorem C8_keepalive (cfg : KAConfig) (s : KAState) (now : Nat)
    (halive : s.alive = true) :
    (s.sincePong + 1 < cfg.pongWait → s.sincePing + 1 ≥ cfg.pingPeriod →
      kaTick cfg s = (⟨0, s.sincePong + 1, true⟩, [.sendPing])) ∧
    (s.sincePong + 1 < cfg.pongWait → s.sincePing + 1 < cfg.pingPeriod →
      kaTick cfg s = (⟨s.sincePing + 1, s.sincePong + 1, true⟩, [])) ∧
    (s.sincePong + 1 ≥ cfg.pongWait →
      kaTick cfg s = (⟨s.sincePing + 1, s.sincePong + 1, false⟩, [.declareDead])) ∧
    kaOnPing cfg now = [.sendPong (now + cfg.writeWait)] := by
  refine ⟨?_, ?_, ?_, rfl⟩
  · intro hpong hping
    simp [kaTick, halive, not_le.mpr hpong, hping]
  · intro hpong hping
    simp [kaTick, halive, not_le.mpr hpong, not_le.mpr hping]
  · intro hpong
    simp [kaTick, halive, hpong]

/-- Witness for C8 at the default configuration: a ping fires when the period
elapses, silence for `pong_wait` kills the connection, and an inbound ping at
time 7 is answered by a pong due within `write_wait`. -/
theorem C8_keepalive_witness :
    ((29 : Nat) + 1 < defaultKAConfig.pongWait ∧
      (29 : Nat) + 1 ≥ defaultKAConfig.pingPeriod ∧
      kaTick defaultKAConfig ⟨29, 29, true⟩ = (⟨0, 30, true⟩, [.sendPing])) ∧
    ((59 : Nat) + 1 ≥ defaultKAConfig.pongWait ∧
      kaTick defaultKAConfig ⟨10, 59, true⟩ = (⟨11, 60, false⟩, [.declareDead])) ∧
    kaOnPing defaultKAConfig 7 = [.sendPong (7 + defaultKAConfig.writeWait)] := by
  have th1 := C8_keepalive defaultKAConfig ⟨29, 29, true⟩ 7 rfl
  have th2 := C8_keepalive defaultKAConfig ⟨10, 59, true⟩ 7 rfl
  exact ⟨⟨by decide, by decide, th1.1 (by decide) (by decide)⟩,
    ⟨by decide, th2.2.2.1 (by decide)⟩, th1.2.2.2⟩

/-- C9 as stated is false on the code: `InitAndRun` passes the literal five
seconds to `context.WithTimeout`, so with `shutdown_grace` configured to 10
seconds the service still waits only 5 — the wait is not the configured
value. -/
theorem C9_counterexample :
    initAndRunShutdownWait ⟨"localhost:8080", "nats://127.0.0.1:4222", false, some 10⟩ = 5 ∧
    specShutdownWait ⟨"localhost:8080", "nats://127.0.0.1:4222", false, some 10⟩ = 10 ∧
    initAndRunShutdownWait ⟨"localhost:8080", "nats://127.0.0.1:4222", false, some 10⟩ ≠
      specShutdownWait ⟨"localhost:8080", "nats://127.0.0.1:4222", false, some 10⟩ := by
  decide

/-- C9 amended: shutdown is initiated by INT or TERM (and by no other
signal); the service then waits up to a fixed 5 seconds — the
`shutdown_grace` option is not consulted — and returns normally when
graceful shutdown completes within that period, terminating fatally
otherwise. -/
theorem C9_shutdown (conf : ServerConfig) (sig : OSSignal) :
    (initiatesShutdown sig = true ↔ (sig = .sigint ∨ sig = .sigterm)) ∧
    initAndRunShutdownWait conf = 5 ∧
    (∀ completesWithin : Nat → Bool,
      initAndRunAfterSignal conf completesWithin =
        if completesWithin 5 then some () else none) := by
  refine ⟨?_, rfl, fun f => rfl⟩
  cases sig <;> simp [initiatesShutdown]

/-- C10: a `GET /devices/{id}` request carrying no credential — no
Authorization header and no JWT cookie — is answered 401 and the device
lookup is never invoked, even though the endpoint table lists only 400, 404
and 500 for this route. -/
theorem C10_getdevice_missing_auth (lookup : DeviceLookup) :
    getDeviceEndpoint .missing lookup = ⟨401, false⟩ ∧
    (getDeviceEndpoint .missing lookup).lookupCalled = false := by
  exact ⟨rfl, rfl⟩

end Deviceconnect
